import Mathlib

/-
  Verification of the trade-execution core of the class-trader repository.

  Shallow embedding of:
    backend/app/execution/risk_manager.py      (check_trade, circuit breakers)
    backend/app/execution/wash_sale_tracker.py (wash sale ledger)
    backend/app/execution/engine.py            (quantity calc, fill polling,
                                                position ledger, post checks)
    backend/app/execution/approval_queue.py    (process_new_decisions)

  Python floats are modelled as rationals, datetimes as abstract Nat
  timestamps, and dates as explicit Gregorian calendar dates. Database
  tables are lists of records; SQLAlchemy queries become list traversals.
-/

namespace ClassTrader

/-! ## Calendar dates (Python datetime.date) -/

/-- A Gregorian calendar date, as Python datetime.date. -/
structure PyDate where
  year : Int
  month : Nat
  day : Nat
deriving DecidableEq, Repr

/-- Gregorian leap year rule, as used by Python datetime. -/
def isLeapYear (y : Int) : Bool :=
  (y % 4 == 0 && y % 100 != 0) || (y % 400 == 0)

/-- Number of days in a month of a given year. -/
def daysInMonth (y : Int) (m : Nat) : Nat :=
  if m = 2 then (if isLeapYear y then 29 else 28)
  else if m = 4 ∨ m = 6 ∨ m = 9 ∨ m = 11 then 30
  else 31

/-- The next calendar day, rolling over months and years. -/
def nextDay (d : PyDate) : PyDate :=
  if d.day < daysInMonth d.year d.month then
    { d with day := d.day + 1 }
  else if d.month < 12 then
    { d with month := d.month + 1, day := 1 }
  else
    { year := d.year + 1, month := 1, day := 1 }

/-- Date plus a number of days: Python date + timedelta(days=n). -/
def addDays (d : PyDate) : Nat → PyDate
  | 0 => d
  | n + 1 => addDays (nextDay d) n

/-- Chronological comparison of dates (Python date ordering):
lexicographic on year, month, day. Boolean valued. -/
def PyDate.ble (a b : PyDate) : Bool :=
  a.year < b.year ||
    (a.year == b.year &&
      (a.month < b.month || (a.month == b.month && a.day ≤ b.day)))

/-- Strict chronological comparison of dates. -/
def PyDate.blt (a b : PyDate) : Bool :=
  PyDate.ble a b && !(a == b)

/-! ## Wash sale ledger (wash_sale_tracker.py, model risk.WashSale) -/

/-- Row of the wash_sales table. -/
structure WashSale where
  ticker : String
  saleDate : PyDate
  lossAmount : ℚ
  qtySold : ℚ
  salePrice : ℚ
  costBasis : ℚ
  blackoutUntil : PyDate
  isYearEndBlocked : Bool
  rebought : Bool
  reboughtAt : Option Nat := none
deriving DecidableEq, Repr

/-- record_wash_sale: build the row inserted for a loss-generating sell.
blackout_until is the sale date plus 30 days; is_year_end_blocked is set
exactly when the sale month is December. -/
def recordWashSale (ticker : String) (saleDate : PyDate)
    (lossAmount qtySold salePrice costBasisPerShare : ℚ) : WashSale :=
  { ticker := ticker
    saleDate := saleDate
    lossAmount := lossAmount
    qtySold := qtySold
    salePrice := salePrice
    costBasis := costBasisPerShare
    blackoutUntil := addDays saleDate 30
    isYearEndBlocked := saleDate.month == 12
    rebought := false }

/-- is_wash_sale_blocked: a BUY of this ticker is hard-blocked when some
row matches ticker, is_year_end_blocked, blackout_until on or after today,
and not yet rebought. -/
def isWashSaleBlocked (washes : List WashSale) (ticker : String)
    (today : PyDate) : Bool :=
  washes.any fun w =>
    w.ticker == ticker && w.isYearEndBlocked &&
      PyDate.ble today w.blackoutUntil && !w.rebought

/-- Rows of the wash_sales table matching the active-window query of
get_active_wash_sale (ticker, blackout on or after today, not rebought),
paired with their positions in the table. -/
def activeWashEntries (washes : List WashSale) (ticker : String)
    (today : PyDate) : List (Nat × WashSale) :=
  washes.enum.filter fun e =>
    e.2.ticker == ticker && PyDate.ble today e.2.blackoutUntil && !e.2.rebought

/-- Pick the entry with the most recent sale date (ORDER BY sale_date DESC,
first row; the first-inserted row wins ties). -/
def pickMostRecent (es : List (Nat × WashSale)) : Option (Nat × WashSale) :=
  es.foldl
    (fun acc e =>
      match acc with
      | none => some e
      | some b => if PyDate.blt b.2.saleDate e.2.saleDate then some e else some b)
    none

/-- get_active_wash_sale together with the row index of the result. -/
def getActiveWashEntry (washes : List WashSale) (ticker : String)
    (today : PyDate) : Option (Nat × WashSale) :=
  pickMostRecent (activeWashEntries washes ticker today)

/-- get_active_wash_sale: the most recent open wash-sale window for the
ticker, if any. -/
def getActiveWashSale (washes : List WashSale) (ticker : String)
    (today : PyDate) : Option WashSale :=
  (getActiveWashEntry washes ticker today).map (fun e => e.2)

/-- mark_rebought: flip the most recent active record to rebought and
record the timestamp. -/
def markRebought (washes : List WashSale) (ticker : String)
    (today : PyDate) (now : Nat) : List WashSale :=
  match getActiveWashEntry washes ticker today with
  | none => washes
  | some (i, w) => washes.set i { w with rebought := true, reboughtAt := some now }

/-! ## Circuit breaker (risk_manager.py, model risk.CircuitBreakerEvent) -/

/-- Row of the circuit_breaker_events table. -/
structure CircuitBreakerEvent where
  id : Nat
  eventType : String
  sleeve : Option String
  reason : String
  triggeredAt : Nat
  resolvedAt : Option Nat := none
  resolvedBy : Option String := none
  isActive : Bool
deriving DecidableEq, Repr

/-- is_circuit_breaker_active: some active event matches the sleeve
(sleeve-specific or system-wide when a sleeve is given; any active event
when no sleeve is given). -/
def isCircuitBreakerActive (events : List CircuitBreakerEvent)
    (sleeve : Option String) : Bool :=
  events.any fun e =>
    e.isActive &&
      (match sleeve with
       | none => true
       | some s => e.sleeve == some s || e.sleeve == none)

/-- trigger_circuit_breaker: the row inserted for a new, active event. -/
def triggerCircuitBreaker (id : Nat) (eventType : String) (reason : String)
    (sleeve : Option String) (now : Nat) : CircuitBreakerEvent :=
  { id := id
    eventType := eventType
    sleeve := sleeve
    reason := reason
    triggeredAt := now
    isActive := true }

/-- Replace the first event with the given id (the ORM mutates the row
returned by the id lookup in place). -/
def replaceById : List CircuitBreakerEvent → Nat → CircuitBreakerEvent →
    List CircuitBreakerEvent
  | [], _, _ => []
  | e :: rest, i, r =>
      if e.id == i then r :: rest else e :: replaceById rest i r

/-- resolve_circuit_breaker: look the event up by id; if found, set
is_active false and stamp resolved_at and resolved_by; return the updated
table and the updated event (none when the id is unknown). -/
def resolveCircuitBreaker (events : List CircuitBreakerEvent) (eventId : Nat)
    (now : Nat) (resolvedBy : String) :
    List CircuitBreakerEvent × Option CircuitBreakerEvent :=
  match events.find? (fun e => e.id == eventId) with
  | none => (events, none)
  | some e =>
      let r := { e with
        isActive := false
        resolvedAt := some now
        resolvedBy := some resolvedBy }
      (replaceById events eventId r, some r)

/-! ## Settings (config.py defaults for the trading section) -/

/-- Trading-relevant configuration values with their config.py defaults. -/
structure Settings where
  mainSleeveAllocation : ℚ := 75
  pennySleeveAllocation : ℚ := 25
  maxPositionPctMain : ℚ := 30
  maxPositionDollarsPenny : ℚ := 8
  minConfidenceMain : ℚ := 65 / 100
  minConfidencePenny : ℚ := 60 / 100
  dailyLossLimitMainPct : ℚ := 5
  dailyLossLimitPennyPct : ℚ := 15
deriving DecidableEq, Repr

/-- The default settings object. -/
def defaultSettings : Settings := {}

/-! ## Risk gate (risk_manager.check_trade) -/

/-- Result record of check_trade. -/
structure RiskCheckResult where
  allowed : Bool
  blockedReason : Option String := none
  requiresManualApproval : Bool := false
  washSaleFlag : Bool := false
  notes : List String := []
deriving DecidableEq, Repr

/-- Denial reason of the confidence gate. -/
def confidenceReason (sleeve : String) (confidence minConf : ℚ) : String :=
  "Confidence " ++ toString confidence ++ " below " ++ sleeve ++
    " sleeve minimum " ++ toString minConf ++ "."

/-- Denial reason of the position size limit. -/
def sizeReason (positionSizePct maxPct : ℚ) : String :=
  "Proposed position " ++ toString positionSizePct ++
    " percent exceeds main sleeve max " ++ toString maxPct ++ " percent."

/-- Denial reason of the capacity limit. -/
def capacityReason (sleeve : String) (count maxPositions : Nat) : String :=
  sleeve ++ " sleeve at capacity (" ++ toString count ++ "/" ++
    toString maxPositions ++ " positions)."

/-- Denial reason of the circuit breaker check. -/
def breakerReason (sleeve : String) : String :=
  "Circuit breaker active for " ++ sleeve ++ " sleeve. All trading halted."

/-- Denial reason of the December wash sale hard block. -/
def washBlockReason (ticker : String) : String :=
  ticker ++ " hard-blocked: December wash sale protection. " ++
    "Cannot rebuy a ticker sold at a loss in December."

/-- Informational note for an open wash sale window. -/
def washWindowNote (ticker : String) (w : WashSale) : String :=
  "Wash sale window active for " ++ ticker ++ " (sold at loss on " ++
    toString (repr w.saleDate) ++ ", window closes " ++
    toString (repr w.blackoutUntil) ++
    "). Disallowed loss will be added to cost basis."

/-- Note for the first-time-position manual override. -/
def newTickerNote (ticker : String) : String :=
  "First-time position in " ++ ticker ++ " — requires manual approval."

/-- Note for the oversize manual override. -/
def oversizeNote (positionSizePct : ℚ) : String :=
  "Position size " ++ toString positionSizePct ++
    " percent exceeds 30 percent threshold — requires manual approval."

/-- Note for the low-confidence manual override. -/
def lowConfidenceNote (sleeve : String) (confidence autoConf : ℚ) : String :=
  "Confidence " ++ toString confidence ++
    " below auto-approve threshold " ++ toString autoConf ++ " for " ++
    sleeve ++ " sleeve."

/-- check_trade: run all hard risk checks on a proposed trade, in source
order, each denial short-circuiting. The database state it reads (circuit
breaker events, wash sale rows, current date) is passed in explicitly. -/
def checkTrade (s : Settings) (breakers : List CircuitBreakerEvent)
    (washes : List WashSale) (today : PyDate)
    (ticker action sleeve : String) (confidence positionSizePct : ℚ)
    (currentPositionsCount : Nat) (isNewTicker : Bool) : RiskCheckResult :=
  -- 1. Confidence gate
  let minConf := if sleeve = "PENNY" then s.minConfidencePenny else s.minConfidenceMain
  if confidence < minConf then
    { allowed := false
      blockedReason := some (confidenceReason sleeve confidence minConf) }
  -- 2. Position size limit (inside the BUY branch; only the MAIN sleeve cap exists)
  else if action = "BUY" ∧ sleeve = "MAIN" ∧ positionSizePct > s.maxPositionPctMain then
    { allowed := false
      blockedReason := some (sizeReason positionSizePct s.maxPositionPctMain) }
  -- 3. Max concurrent positions (inside the BUY branch)
  else if action = "BUY" ∧ currentPositionsCount ≥ (if sleeve = "PENNY" then 5 else 8) then
    { allowed := false
      blockedReason := some (capacityReason sleeve currentPositionsCount
        (if sleeve = "PENNY" then 5 else 8)) }
  -- 4. Circuit breaker
  else if isCircuitBreakerActive breakers (some sleeve) then
    { allowed := false
      blockedReason := some (breakerReason sleeve) }
  -- 5. Wash sale hard block (BUY only)
  else if action = "BUY" ∧ isWashSaleBlocked washes ticker today then
    { allowed := false
      blockedReason := some (washBlockReason ticker) }
  else
    -- 5b. Wash sale soft flag (BUY only)
    let activeWash := if action = "BUY" then getActiveWashSale washes ticker today else none
    let washFlag := activeWash.isSome
    let notes0 : List String :=
      match activeWash with
      | some w => [washWindowNote ticker w]
      | none => []
    -- 6. Auto-approve override conditions: never deny, only force manual review
    let manual1 := isNewTicker && decide (action = "BUY")
    let notes1 := if manual1 then notes0 ++ [newTickerNote ticker] else notes0
    let manual2 := decide (action = "BUY" ∧ positionSizePct > 30)
    let notes2 := if manual2 then notes1 ++ [oversizeNote positionSizePct] else notes1
    let autoConf : ℚ := if sleeve = "MAIN" then 70 / 100 else 60 / 100
    let manual3 := decide (confidence < autoConf)
    let notes3 := if manual3 then notes2 ++ [lowConfidenceNote sleeve confidence autoConf] else notes2
    { allowed := true
      requiresManualApproval := manual1 || manual2 || manual3
      washSaleFlag := washFlag
      notes := notes3 }

/-! ## Positions and trade decisions (models trading.py) -/

/-- Row of the positions table. The closed_at timestamp is kept as its
calendar date, which is all the daily P and L query reads from it. -/
structure Position where
  ticker : String
  sleeve : String
  entryPrice : ℚ
  entryDate : PyDate
  currentQty : ℚ
  costBasis : ℚ
  adjustedCostBasis : Option ℚ := none
  isOpen : Bool
  realizedPnl : Option ℚ := none
  closedDate : Option PyDate := none
deriving DecidableEq, Repr

/-- Row of the trade_decisions table (the fields the execution core reads
and writes). -/
structure Decision where
  id : Nat
  ticker : String
  action : String
  sleeve : String
  confidence : ℚ
  positionSizePct : ℚ
  status : String
  resolvedBy : Option String := none
  resolvedAt : Option Nat := none
  washSaleFlagged : Bool := false
deriving DecidableEq, Repr

/-- Row of the executions table. -/
structure ExecutionRec where
  tradeDecisionId : Nat
  orderId : String
  side : String
  qty : ℚ
  intendedPrice : ℚ
  filledPrice : Option ℚ := none
  slippage : Option ℚ := none
  status : String
  executedAt : Option Nat := none
deriving DecidableEq, Repr

/-- The database state the execution core reads and writes. -/
structure Db where
  decisions : List Decision
  positions : List Position
  washSales : List WashSale
  breakers : List CircuitBreakerEvent
  executions : List ExecutionRec
deriving DecidableEq, Repr

/-- Lookup of a trade decision by id (SELECT ... WHERE id = ...). -/
def getDecision (db : Db) (tradeId : Nat) : Option Decision :=
  db.decisions.find? fun d => d.id == tradeId

/-- Update every decision row carrying the given id (the ORM mutates the
row object found by the id lookup). -/
def updateDecision (db : Db) (tradeId : Nat) (f : Decision → Decision) : Db :=
  { db with decisions := db.decisions.map fun d => if d.id == tradeId then f d else d }

/-- Index of the open position for (ticker, sleeve), if any. -/
def findOpenPosIdx (ps : List Position) (ticker sleeve : String) : Option Nat :=
  ps.findIdx? fun p => p.ticker == ticker && p.sleeve == sleeve && p.isOpen

/-! ## Execution engine (engine.py) -/

/-- Poll interval of the fill loop, seconds. -/
def pollIntervalSec : Nat := 2

/-- Timeout of the fill loop, seconds. -/
def pollTimeoutSec : Nat := 90

/-- Python int() truncates toward zero. -/
def truncRat (q : ℚ) : Int :=
  if q < 0 then Int.ceil q else Int.floor q

/-- The dollar amount allocated to a BUY before dividing by price:
the requested percentage of the sleeve allocation, additionally capped at
the absolute dollar ceiling for the PENNY sleeve. -/
def allocatedDollars (s : Settings) (sleeve : String) (positionSizePct : ℚ) : ℚ :=
  let sleeveEquity :=
    if sleeve = "PENNY" then s.pennySleeveAllocation else s.mainSleeveAllocation
  let dollarAmount := positionSizePct / 100 * sleeveEquity
  if sleeve = "PENNY" then min dollarAmount s.maxPositionDollarsPenny else dollarAmount

/-- BUY branch of _calculate_qty: whole shares affordable with the
allocated dollars, clamped below at zero. -/
def calculateQtyBuy (s : Settings) (sleeve : String)
    (positionSizePct currentPrice : ℚ) : Int :=
  max (truncRat (allocatedDollars s sleeve positionSizePct / currentPrice)) 0

/-- Broker fallback of the SELL quantity lookup: read the live position
list (alpaca.get_positions; an error value models the request raising,
which is logged and yields zero). -/
def fallbackQtySell (livePositions : Except Unit (List (String × ℚ)))
    (ticker : String) : Int :=
  match livePositions with
  | .error _ => 0
  | .ok ps =>
      match ps.find? (fun p => p.1 == ticker) with
      | some p => truncRat p.2
      | none => 0

/-- SELL branch of _calculate_qty: the full open quantity from the local
Position record, else the quantity from the live broker position list,
else zero. -/
def calculateQtySell (db : Db) (livePositions : Except Unit (List (String × ℚ)))
    (ticker sleeve : String) : Int :=
  match findOpenPosIdx db.positions ticker sleeve with
  | some i =>
      match db.positions.get? i with
      | some p =>
          if p.currentQty > 0 then truncRat p.currentQty
          else fallbackQtySell livePositions ticker
      | none => fallbackQtySell livePositions ticker
  | none => fallbackQtySell livePositions ticker

/-- Broker order status record returned by get_order_status. -/
structure OrderStatus where
  status : String
  filledAvgPrice : Option ℚ
  filledQty : ℚ
deriving DecidableEq, Repr

/-- Python truthiness of the filled_avg_price field: None and 0.0 are
falsy. -/
def pyTruthy (o : Option ℚ) : Bool :=
  match o with
  | none => false
  | some q => q != 0

/-- One poll observation: either an order status or a raised exception
(which the loop logs and swallows). -/
abbrev PollOracle := Nat → Except Unit OrderStatus

/-- The body of the polling loop of _poll_for_fill, iterated a fixed
number of times. Argument i counts polls already made; the second
argument is the number of iterations left. Returns the fill (if any)
and the number of get_order_status calls made. -/
def pollIter (polls : PollOracle) : Nat → Nat → Option OrderStatus × Nat
  | _, 0 => (none, 0)
  | i, n + 1 =>
      match polls i with
      | .error _ =>
          let r := pollIter polls (i + 1) n
          (r.1, r.2 + 1)
      | .ok st =>
          if st.status = "filled" ∧ pyTruthy st.filledAvgPrice then (some st, 1)
          else if st.status = "cancelled" ∨ st.status = "expired" ∨ st.status = "rejected" then
            (none, 1)
          else
            let r := pollIter polls (i + 1) n
            (r.1, r.2 + 1)

/-- Number of iterations of the while loop of _poll_for_fill: elapsed
starts at 0, gains 2 per iteration, and the loop runs while elapsed is
below 90 — hence 45 iterations. -/
def maxPollIterations : Nat := pollTimeoutSec / pollIntervalSec

/-- _poll_for_fill: poll every 2 seconds until filled, terminal, or the
90 second timeout; also reports how many status calls were made. -/
def pollForFill (polls : PollOracle) : Option OrderStatus × Nat :=
  pollIter polls 0 maxPollIterations

/-- The broker-facing oracle of one execute_trade call: the usable quote
price (none when no positive price is obtainable), the order submission
result, the polling trace, and the live position list. -/
structure BrokerOracle where
  quote : Option ℚ
  submit : Except Unit String
  polls : PollOracle
  livePositions : Except Unit (List (String × ℚ))

/-- An externally visible side effect, tagged with the trade decision it
was emitted for. -/
structure Effect where
  tradeId : Nat
  kind : String
deriving DecidableEq, Repr

/-- Averaging a BUY fill into an existing open position
(_update_position, BUY branch with a position found): accumulate cost
basis and quantity and recompute the weighted-average entry price. -/
def averageInto (p : Position) (filledPrice filledQty : ℚ) : Position :=
  let fillCost := filledPrice * filledQty
  let totalQty := p.currentQty + filledQty
  let totalCost := p.costBasis + fillCost
  { p with
    currentQty := totalQty
    costBasis := totalCost
    entryPrice := totalCost / totalQty }

/-- BUY branch of _update_position: create or average into the open
position, then apply the wash sale cost basis adjustment and mark the
window rebought. Returns the new positions and wash tables and whether
the wash sale flag was set on the trade. -/
def updatePositionBuy (positions : List Position) (washes : List WashSale)
    (ticker sleeve : String) (filledPrice filledQty : ℚ)
    (today : PyDate) (now : Nat) :
    List Position × List WashSale × Bool :=
  let fillCost := filledPrice * filledQty
  let entry :=
    match findOpenPosIdx positions ticker sleeve with
    | some i =>
        match positions.get? i with
        | some p => (positions.set i (averageInto p filledPrice filledQty), i)
        | none => (positions, i)
    | none =>
        let newPos : Position :=
          { ticker := ticker
            sleeve := sleeve
            entryPrice := filledPrice
            entryDate := today
            currentQty := filledQty
            costBasis := fillCost
            isOpen := true }
        (positions ++ [newPos], positions.length)
  match getActiveWashSale washes ticker today with
  | none => (entry.1, washes, false)
  | some w =>
      let adjusted :=
        match entry.1.get? entry.2 with
        | some p => entry.1.set entry.2
            { p with adjustedCostBasis := some (p.costBasis + w.lossAmount) }
        | none => entry.1
      (adjusted, markRebought washes ticker today now, true)

/-- SELL branch of _update_position: reduce quantity and cost basis
proportionally; on full close (residual quantity at most 0.001) mark the
position closed, stamp realized P and L, and record a wash sale when the
trade realized a loss. -/
def updatePositionSell (positions : List Position) (washes : List WashSale)
    (ticker sleeve : String) (filledPrice filledQty : ℚ)
    (today : PyDate) : List Position × List WashSale :=
  match findOpenPosIdx positions ticker sleeve with
  | none => (positions, washes)
  | some i =>
      match positions.get? i with
      | none => (positions, washes)
      | some p =>
          let costPerShare := if p.currentQty > 0 then p.costBasis / p.currentQty else 0
          let costOfSold := costPerShare * filledQty
          let sellProceeds := filledPrice * filledQty
          let realizedPnl := sellProceeds - costOfSold
          let newQty := max 0 (p.currentQty - filledQty)
          let newCost := max 0 (p.costBasis - costOfSold)
          if newQty ≤ 1 / 1000 then
            (positions.set i { p with
                currentQty := newQty
                costBasis := newCost
                isOpen := false
                closedDate := some today
                realizedPnl := some realizedPnl },
             if realizedPnl < 0 then
               washes ++ [recordWashSale ticker today |realizedPnl| filledQty
                 filledPrice costPerShare]
             else washes)
          else
            (positions.set i { p with currentQty := newQty, costBasis := newCost },
             washes)

/-- Realized P and L of positions closed today in a sleeve
(get_today_realized_pnl). -/
def todayRealizedPnl (positions : List Position) (sleeve : String)
    (today : PyDate) : ℚ :=
  (positions.filter fun p =>
      p.sleeve == sleeve && !p.isOpen && p.realizedPnl.isSome &&
        p.closedDate == some today).foldl
    (fun acc p => acc + p.realizedPnl.getD 0) 0

/-- _post_execution_checks: after a SELL fill, trip the daily-loss circuit
breaker for the sleeve when the realized loss today exceeds the limit and
no breaker is already active. -/
def postExecutionChecks (s : Settings) (db : Db) (tradeId : Nat)
    (action sleeve : String) (today : PyDate) (now : Nat) : Db × List Effect :=
  if action ≠ "SELL" then (db, [])
  else
    let pnl := todayRealizedPnl db.positions sleeve today
    let sleeveEquity :=
      if sleeve = "PENNY" then s.pennySleeveAllocation else s.mainSleeveAllocation
    let lossLimitPct :=
      if sleeve = "PENNY" then s.dailyLossLimitPennyPct else s.dailyLossLimitMainPct
    let lossLimitDollars := sleeveEquity * (lossLimitPct / 100)
    if pnl < -lossLimitDollars then
      if isCircuitBreakerActive db.breakers (some sleeve) then (db, [])
      else
        let event := triggerCircuitBreaker db.breakers.length
          ("DAILY_LOSS_" ++ sleeve)
          ("daily loss limit reached for " ++ sleeve) (some sleeve) now
        ({ db with breakers := db.breakers ++ [event] },
         [⟨tradeId, "notify_circuit_breaker"⟩, ⟨tradeId, "ws_circuit_breaker"⟩])
    else (db, [])

/-- execute_trade: quote, size, submit, poll, record the fill, update the
position, run post-execution checks, broadcast. The unhappy paths mirror
the source: a missing or nonpositive quote raises and is caught at the
top level (trade FAILED), zero quantity is SKIPPED, an order submission
error is caught at the top level (trade FAILED), and a polling timeout or
terminal broker state cancels the order and fails the trade. -/
def executeTrade (o : BrokerOracle) (s : Settings) (now : Nat) (today : PyDate)
    (db : Db) (tradeId : Nat) : Db × List Effect :=
  match getDecision db tradeId with
  | none => (db, [])
  | some t =>
    match o.quote with
    | none =>
        -- raise ValueError, caught by the top-level handler
        (updateDecision db tradeId fun d =>
          { d with status := "FAILED", resolvedAt := some now },
         [⟨tradeId, "ws_trade_failed"⟩])
    | some price =>
      if price ≤ 0 then
        (updateDecision db tradeId fun d =>
          { d with status := "FAILED", resolvedAt := some now },
         [⟨tradeId, "ws_trade_failed"⟩])
      else
        let side := if t.action = "BUY" then "buy" else "sell"
        let qty : Int :=
          if t.action = "BUY" then calculateQtyBuy s t.sleeve t.positionSizePct price
          else if t.action = "SELL" then calculateQtySell db o.livePositions t.ticker t.sleeve
          else 0
        if qty ≤ 0 then
          (updateDecision db tradeId fun d =>
            { d with status := "SKIPPED", resolvedAt := some now }, [])
        else
          match o.submit with
          | .error _ =>
              -- submission raised, caught by the top-level handler
              (updateDecision db tradeId fun d =>
                { d with status := "FAILED", resolvedAt := some now },
               [⟨tradeId, "ws_trade_failed"⟩])
          | .ok orderId =>
            let shell : ExecutionRec :=
              { tradeDecisionId := tradeId, orderId := orderId, side := side,
                qty := (qty : ℚ), intendedPrice := price, status := "PENDING" }
            match (pollForFill o.polls).1 with
            | none =>
                -- timeout or terminal broker state: one cancel, then fail
                ({ updateDecision db tradeId (fun d =>
                     { d with status := "FAILED", resolvedAt := some now }) with
                   executions := db.executions ++ [{ shell with status := "CANCELLED" }] },
                 [⟨tradeId, "submit_order"⟩, ⟨tradeId, "cancel_order"⟩,
                  ⟨tradeId, "ws_trade_failed"⟩])
            | some st =>
                let filledPrice := st.filledAvgPrice.getD 0
                let filledQty := st.filledQty
                let slippage := filledPrice - price
                let execFilled := { shell with
                  filledPrice := some filledPrice
                  qty := filledQty
                  slippage := some slippage
                  status := "FILLED"
                  executedAt := some now }
                let posWash :=
                  if t.action = "BUY" then
                    updatePositionBuy db.positions db.washSales t.ticker t.sleeve
                      filledPrice filledQty today now
                  else if t.action = "SELL" then
                    let r := updatePositionSell db.positions db.washSales t.ticker
                      t.sleeve filledPrice filledQty today
                    (r.1, r.2, false)
                  else (db.positions, db.washSales, false)
                let db1 := { db with
                  positions := posWash.1
                  washSales := posWash.2.1
                  executions := db.executions ++ [execFilled] }
                let db2 := updateDecision db1 tradeId fun d =>
                  { d with
                      status := "EXECUTED"
                      resolvedAt := some now
                      washSaleFlagged := d.washSaleFlagged || posWash.2.2 }
                let post := postExecutionChecks s db2 tradeId t.action t.sleeve today now
                (post.1,
                 [⟨tradeId, "submit_order"⟩] ++ post.2 ++ [⟨tradeId, "ws_trade_executed"⟩])

/-! ## Approval queue (approval_queue.process_new_decisions) -/

/-- One iteration of the process_new_decisions loop for a single trade id:
skip when the decision is missing or not PENDING, otherwise risk-check it
and reject, auto-approve and execute, or queue for manual review. -/
def processOne (oracles : Nat → BrokerOracle) (s : Settings) (autoApprove : Bool)
    (now : Nat) (today : PyDate) (db : Db) (tradeId : Nat) : Db × List Effect :=
  match getDecision db tradeId with
  | none => (db, [])
  | some t =>
    if t.status ≠ "PENDING" then (db, [])
    else
      let count := (db.positions.filter fun p => p.sleeve == t.sleeve && p.isOpen).length
      let isNewTicker :=
        (db.positions.find? fun p => p.ticker == t.ticker && p.sleeve == t.sleeve).isNone
      let risk := checkTrade s db.breakers db.washSales today t.ticker t.action
        t.sleeve t.confidence t.positionSizePct count isNewTicker
      if risk.allowed = false then
        (updateDecision db tradeId fun d =>
          { d with
              status := "REJECTED"
              resolvedAt := some now
              resolvedBy := some "AUTO" },
         [⟨tradeId, "risk_check"⟩])
      else
        let db1 :=
          if risk.washSaleFlag then
            updateDecision db tradeId fun d => { d with washSaleFlagged := true }
          else db
        if autoApprove ∧ risk.requiresManualApproval = false then
          let db2 := updateDecision db1 tradeId fun d =>
            { d with
                status := "APPROVED"
                resolvedBy := some "AUTO"
                resolvedAt := some now }
          let r := executeTrade (oracles tradeId) s now today db2 tradeId
          (r.1, [⟨tradeId, "risk_check"⟩, ⟨tradeId, "execute"⟩] ++ r.2)
        else
          (db1, [⟨tradeId, "risk_check"⟩, ⟨tradeId, "notify_pending"⟩,
            ⟨tradeId, "ws_trade_pending"⟩])

/-- process_new_decisions: run processOne over a batch of trade ids,
threading the database state and accumulating emitted effects. -/
def processNewDecisions (oracles : Nat → BrokerOracle) (s : Settings)
    (autoApprove : Bool) (now : Nat) (today : PyDate) (db : Db) :
    List Nat → Db × List Effect
  | [] => (db, [])
  | tradeId :: rest =>
      let r := processOne oracles s autoApprove now today db tradeId
      let rs := processNewDecisions oracles s autoApprove now today r.1 rest
      (rs.1, r.2 ++ rs.2)

/-! ## Concrete fixtures used by witnesses -/

/-- A broker oracle whose order never leaves the NEW state: quotes and
submission succeed, every status poll returns a non-terminal status. -/
def stuckOracle : BrokerOracle :=
  { quote := some 5
    submit := Except.ok "oid-1"
    polls := fun _ => Except.ok { status := "new", filledAvgPrice := none, filledQty := 0 }
    livePositions := Except.ok [] }

/-- An approved BUY decision fixture. -/
def sampleBuyDecision : Decision :=
  { id := 7
    ticker := "AAPL"
    action := "BUY"
    sleeve := "MAIN"
    confidence := mkRat 8 10
    positionSizePct := 20
    status := "APPROVED" }

/-- A database holding just the sample decision. -/
def sampleDb : Db :=
  { decisions := [sampleBuyDecision]
    positions := []
    washSales := []
    breakers := []
    executions := [] }

/-! ## Helper lemmas -/

theorem string_ne_empty_of_length_pos (s : String) (h : 0 < s.length) : s ≠ "" := by
  intro hc
  rw [hc] at h
  simp at h

theorem confidenceReason_ne_empty (sl : String) (c m : ℚ) :
    confidenceReason sl c m ≠ "" := by
  unfold confidenceReason
  apply string_ne_empty_of_length_pos
  simp only [String.length_append]
  have h : ("Confidence " : String).length = 11 := rfl
  omega

theorem sizeReason_ne_empty (p m : ℚ) : sizeReason p m ≠ "" := by
  unfold sizeReason
  apply string_ne_empty_of_length_pos
  simp only [String.length_append]
  have h : ("Proposed position " : String).length = 18 := rfl
  omega

theorem capacityReason_ne_empty (sl : String) (c m : Nat) :
    capacityReason sl c m ≠ "" := by
  unfold capacityReason
  apply string_ne_empty_of_length_pos
  simp only [String.length_append]
  have h : (" sleeve at capacity (" : String).length = 21 := rfl
  omega

theorem breakerReason_ne_empty (sl : String) : breakerReason sl ≠ "" := by
  unfold breakerReason
  apply string_ne_empty_of_length_pos
  simp only [String.length_append]
  have h : ("Circuit breaker active for " : String).length = 27 := rfl
  omega

theorem washBlockReason_ne_empty (t : String) : washBlockReason t ≠ "" := by
  unfold washBlockReason
  apply string_ne_empty_of_length_pos
  simp only [String.length_append]
  have h : (" hard-blocked: December wash sale protection. " : String).length = 46 := rfl
  omega

theorem denyInv (R : String) (hR : R ≠ "") :
    (false = false ↔ ∃ reason, some R = some reason ∧ reason ≠ "") ∧
    ((false = true ∨ false = true) → false = true) :=
  ⟨⟨fun _ => ⟨R, rfl, hR⟩, fun _ => rfl⟩, fun h => h.elim id id⟩

/-! ## Claim C10 -/

/-- Claim C10: every RiskCheckResult returned by check_trade satisfies
that allowed is false exactly when blocked_reason is a non-empty string,
and that a result carrying the wash-sale flag or the manual-review flag
is always an allowance. -/
theorem checkTrade_result_invariants (s : Settings)
    (breakers : List CircuitBreakerEvent) (washes : List WashSale)
    (today : PyDate) (ticker action sleeve : String)
    (confidence positionSizePct : ℚ) (count : Nat) (isNew : Bool) :
    ∃ a br manual washFlag notes,
      checkTrade s breakers washes today ticker action sleeve confidence
        positionSizePct count isNew = ⟨a, br, manual, washFlag, notes⟩ ∧
      (a = false ↔ ∃ reason, br = some reason ∧ reason ≠ "") ∧
      ((washFlag = true ∨ manual = true) → a = true) := by
  unfold checkTrade
  by_cases h1 : confidence <
      (if sleeve = "PENNY" then s.minConfidencePenny else s.minConfidenceMain)
  · rw [if_pos h1]
    exact ⟨_, _, _, _, _, rfl, denyInv _ (confidenceReason_ne_empty _ _ _)⟩
  rw [if_neg h1]
  by_cases h2 : action = "BUY" ∧ sleeve = "MAIN" ∧ positionSizePct > s.maxPositionPctMain
  · rw [if_pos h2]
    exact ⟨_, _, _, _, _, rfl, denyInv _ (sizeReason_ne_empty _ _)⟩
  rw [if_neg h2]
  by_cases h3 : action = "BUY" ∧ count ≥ (if sleeve = "PENNY" then 5 else 8)
  · rw [if_pos h3]
    exact ⟨_, _, _, _, _, rfl, denyInv _ (capacityReason_ne_empty _ _ _)⟩
  rw [if_neg h3]
  by_cases h4 : isCircuitBreakerActive breakers (some sleeve) = true
  · rw [if_pos h4]
    exact ⟨_, _, _, _, _, rfl, denyInv _ (breakerReason_ne_empty _)⟩
  rw [if_neg h4]
  by_cases h5 : action = "BUY" ∧ isWashSaleBlocked washes ticker today = true
  · rw [if_pos h5]
    exact ⟨_, _, _, _, _, rfl, denyInv _ (washBlockReason_ne_empty _)⟩
  rw [if_neg h5]
  exact ⟨_, _, _, _, _, rfl, by simp, fun _ => rfl⟩

/-- Claim C10, witness: the invariants instantiated at a concrete clean
BUY proposal. -/
theorem checkTrade_result_invariants_witness :
    ∃ a br manual washFlag notes,
      checkTrade defaultSettings [] [] ⟨2025, 6, 2⟩ "AAPL" "BUY" "MAIN"
        (9 / 10) 10 0 false = ⟨a, br, manual, washFlag, notes⟩ ∧
      (a = false ↔ ∃ reason, br = some reason ∧ reason ≠ "") ∧
      ((washFlag = true ∨ manual = true) → a = true) :=
  checkTrade_result_invariants defaultSettings [] [] ⟨2025, 6, 2⟩ "AAPL" "BUY"
    "MAIN" (9 / 10) 10 0 false

/-! ## Claim C1 -/

/-- Claim C1, counterexample: a PENNY BUY requesting 1000 percent of the
book — far beyond any configured cap, in particular beyond the only
configured hard cap of 30 percent — is still allowed: check_trade has no
size check for the PENNY book. -/
theorem checkTrade_penny_oversize_buy_allowed :
    (checkTrade defaultSettings [] [] ⟨2025, 6, 2⟩ "PNY" "BUY" "PENNY" (9 / 10)
      1000 0 false).allowed = true ∧
    (1000 : ℚ) > defaultSettings.maxPositionPctMain := by
  constructor
  · with_unfolding_all decide
  · with_unfolding_all decide

/-- Claim C1, amended: a MAIN BUY whose size percentage exceeds the MAIN
hard cap is always denied with a blocked reason; for every non-BUY action
(in particular SELL) the whole result is independent of the size
percentage, and for a PENNY BUY the allowed verdict is independent of the
size percentage — so neither is ever denied on size. -/
theorem checkTrade_size_denial_main_only (s : Settings)
    (breakers : List CircuitBreakerEvent) (washes : List WashSale) (today : PyDate)
    (ticker sleeve : String) (confidence : ℚ) (count : Nat) (isNew : Bool) :
    (∀ pct : ℚ, pct > s.maxPositionPctMain →
      (checkTrade s breakers washes today ticker "BUY" "MAIN" confidence pct count
        isNew).allowed = false ∧
      (checkTrade s breakers washes today ticker "BUY" "MAIN" confidence pct count
        isNew).blockedReason.isSome = true) ∧
    (∀ action : String, action ≠ "BUY" → ∀ pct1 pct2 : ℚ,
      checkTrade s breakers washes today ticker action sleeve confidence pct1 count isNew =
      checkTrade s breakers washes today ticker action sleeve confidence pct2 count isNew) ∧
    (∀ pct1 pct2 : ℚ,
      (checkTrade s breakers washes today ticker "BUY" "PENNY" confidence pct1 count
        isNew).allowed =
      (checkTrade s breakers washes today ticker "BUY" "PENNY" confidence pct2 count
        isNew).allowed) := by
  refine ⟨?_, ?_, ?_⟩
  · intro pct h
    unfold checkTrade
    by_cases h1 : confidence <
        (if ("MAIN" : String) = "PENNY" then s.minConfidencePenny else s.minConfidenceMain)
    · rw [if_pos h1]
      exact ⟨rfl, rfl⟩
    · rw [if_neg h1, if_pos ⟨rfl, rfl, h⟩]
      exact ⟨rfl, rfl⟩
  · intro action ha pct1 pct2
    unfold checkTrade
    simp [ha]
  · intro pct1 pct2
    unfold checkTrade
    simp [apply_ite RiskCheckResult.allowed]

/-- Claim C1, witness: the MAIN denial applied at a concrete oversized
BUY, and the SELL and PENNY independence at concrete size percentages. -/
theorem checkTrade_size_denial_main_only_witness :
    (checkTrade defaultSettings [] [] ⟨2025, 6, 2⟩ "AAPL" "BUY" "MAIN" (9 / 10)
      35 0 false).allowed = false ∧
    checkTrade defaultSettings [] [] ⟨2025, 6, 2⟩ "AAPL" "SELL" "MAIN" (9 / 10)
      35 0 false =
      checkTrade defaultSettings [] [] ⟨2025, 6, 2⟩ "AAPL" "SELL" "MAIN" (9 / 10)
        1000 0 false ∧
    (checkTrade defaultSettings [] [] ⟨2025, 6, 2⟩ "PNY" "BUY" "PENNY" (9 / 10)
      35 0 false).allowed =
      (checkTrade defaultSettings [] [] ⟨2025, 6, 2⟩ "PNY" "BUY" "PENNY" (9 / 10)
        1000 0 false).allowed :=
  ⟨((checkTrade_size_denial_main_only defaultSettings [] [] ⟨2025, 6, 2⟩ "AAPL"
      "MAIN" (9 / 10) 0 false).1 35 (by with_unfolding_all decide)).1,
   (checkTrade_size_denial_main_only defaultSettings [] [] ⟨2025, 6, 2⟩ "AAPL"
      "MAIN" (9 / 10) 0 false).2.1 "SELL" (by decide) 35 1000,
   (checkTrade_size_denial_main_only defaultSettings [] [] ⟨2025, 6, 2⟩ "PNY"
      "MAIN" (9 / 10) 0 false).2.2 35 1000⟩

/-! ## Claim C2 -/

/-- Claim C2, counterexample: a SELL that is a first-ever position in the
book and whose size is far above the 30 percent manual-review threshold
still comes back with requires_manual_approval false — the new-ticker and
size overrides are BUY-only in check_trade. -/
theorem checkTrade_sell_overrides_not_manual :
    (checkTrade defaultSettings [] [] ⟨2025, 6, 2⟩ "AAPL" "SELL" "MAIN" (9 / 10)
      50 0 true).allowed = true ∧
    (checkTrade defaultSettings [] [] ⟨2025, 6, 2⟩ "AAPL" "SELL" "MAIN" (9 / 10)
      50 0 true).requiresManualApproval = false := by
  constructor
  · with_unfolding_all decide
  · with_unfolding_all decide

/-- Claim C2, amended: a SELL that passes the confidence gate with no
active circuit breaker is always allowed, is never wash-sale flagged, and
requires manual approval exactly when its confidence is below the
auto-approve threshold of the book — the first-position and size
overrides of step 7 do not apply to sells (the size percentage and
new-ticker inputs are universally quantified and do not occur in the
result). -/
theorem checkTrade_sell_manual_iff_low_confidence (s : Settings)
    (breakers : List CircuitBreakerEvent) (washes : List WashSale) (today : PyDate)
    (ticker sleeve : String) (confidence pct : ℚ) (count : Nat) (isNew : Bool)
    (hconf : ¬ confidence <
      (if sleeve = "PENNY" then s.minConfidencePenny else s.minConfidenceMain))
    (hcb : isCircuitBreakerActive breakers (some sleeve) = false) :
    (checkTrade s breakers washes today ticker "SELL" sleeve confidence pct count
      isNew).allowed = true ∧
    (checkTrade s breakers washes today ticker "SELL" sleeve confidence pct count
      isNew).requiresManualApproval =
      decide (confidence < if sleeve = "MAIN" then (70 : ℚ) / 100 else (60 : ℚ) / 100) ∧
    (checkTrade s breakers washes today ticker "SELL" sleeve confidence pct count
      isNew).washSaleFlag = false ∧
    (checkTrade s breakers washes today ticker "SELL" sleeve confidence pct count
      isNew).blockedReason = none := by
  unfold checkTrade
  rw [if_neg hconf, if_neg (by simp), if_neg (by simp), if_neg (by simp [hcb]),
    if_neg (by simp)]
  refine ⟨rfl, ?_, ?_, rfl⟩ <;> simp

/-- Claim C2, witness: a concrete MAIN SELL at confidence 0.65 — above
the hard minimum, below the auto-approve threshold — with a large size
and new-ticker flag set, showing only the confidence override fires. -/
theorem checkTrade_sell_manual_iff_low_confidence_witness :
    (checkTrade defaultSettings [] [] ⟨2025, 6, 2⟩ "AAPL" "SELL" "MAIN"
      (65 / 100) 50 0 true).allowed = true ∧
    (checkTrade defaultSettings [] [] ⟨2025, 6, 2⟩ "AAPL" "SELL" "MAIN"
      (65 / 100) 50 0 true).requiresManualApproval =
      decide ((65 : ℚ) / 100 < if ("MAIN" : String) = "MAIN" then (70 : ℚ) / 100
        else (60 : ℚ) / 100) ∧
    (checkTrade defaultSettings [] [] ⟨2025, 6, 2⟩ "AAPL" "SELL" "MAIN"
      (65 / 100) 50 0 true).washSaleFlag = false ∧
    (checkTrade defaultSettings [] [] ⟨2025, 6, 2⟩ "AAPL" "SELL" "MAIN"
      (65 / 100) 50 0 true).blockedReason = none :=
  checkTrade_sell_manual_iff_low_confidence defaultSettings [] [] ⟨2025, 6, 2⟩
    "AAPL" "MAIN" (65 / 100) 50 0 true (by with_unfolding_all decide) (by decide)

/-! ## Claim C3 -/

/-- Claim C3, counterexample: resolving an event that is already resolved
(resolved at time 1 by ADMIN) is not a no-op — the call at time 5 by
OTHER returns the event with resolved_at and resolved_by overwritten. -/
theorem resolveCircuitBreaker_restamps :
    ¬ ((resolveCircuitBreaker
        [{ id := 1, eventType := "DAILY_LOSS_MAIN", sleeve := some "MAIN",
           reason := "daily loss", triggeredAt := 0, resolvedAt := some 1,
           resolvedBy := some "ADMIN", isActive := false }] 1 5 "OTHER").2 =
      some { id := 1, eventType := "DAILY_LOSS_MAIN", sleeve := some "MAIN",
             reason := "daily loss", triggeredAt := 0, resolvedAt := some 1,
             resolvedBy := some "ADMIN", isActive := false }) ∧
    ((resolveCircuitBreaker
        [{ id := 1, eventType := "DAILY_LOSS_MAIN", sleeve := some "MAIN",
           reason := "daily loss", triggeredAt := 0, resolvedAt := some 1,
           resolvedBy := some "ADMIN", isActive := false }] 1 5 "OTHER").2.map
      (fun e => (e.resolvedAt, e.resolvedBy))) = some (some 5, some "OTHER") := by
  constructor
  · decide
  · decide

/-- Claim C3, amended: resolving an already-resolved event keeps it
deactivated and keeps id, type, sleeve, reason and trigger time, but
overwrites resolved_at with the current time and resolved_by with the
calling identity — it is not a no-op on those two fields. -/
theorem resolveCircuitBreaker_restamp_resolved (events : List CircuitBreakerEvent)
    (eventId now : Nat) (rb : String) (e : CircuitBreakerEvent)
    (hfind : events.find? (fun x => x.id == eventId) = some e)
    (_hres : e.isActive = false) :
    (resolveCircuitBreaker events eventId now rb).2 =
      some { e with isActive := false, resolvedAt := some now, resolvedBy := some rb } := by
  unfold resolveCircuitBreaker
  rw [hfind]

/-- Claim C3, witness: the amended behavior at a concrete already-resolved
event. -/
theorem resolveCircuitBreaker_restamp_resolved_witness :
    (resolveCircuitBreaker
        [{ id := 1, eventType := "DAILY_LOSS_MAIN", sleeve := some "MAIN",
           reason := "daily loss", triggeredAt := 0, resolvedAt := some 1,
           resolvedBy := some "ADMIN", isActive := false }] 1 5 "OTHER").2 =
      some { id := 1, eventType := "DAILY_LOSS_MAIN", sleeve := some "MAIN",
             reason := "daily loss", triggeredAt := 0, resolvedAt := some 5,
             resolvedBy := some "OTHER", isActive := false } :=
  resolveCircuitBreaker_restamp_resolved
    [{ id := 1, eventType := "DAILY_LOSS_MAIN", sleeve := some "MAIN",
       reason := "daily loss", triggeredAt := 0, resolvedAt := some 1,
       resolvedBy := some "ADMIN", isActive := false }] 1 5 "OTHER"
    { id := 1, eventType := "DAILY_LOSS_MAIN", sleeve := some "MAIN",
      reason := "daily loss", triggeredAt := 0, resolvedAt := some 1,
      resolvedBy := some "ADMIN", isActive := false } rfl rfl

/-! ## Claim C4 -/

set_option maxRecDepth 4000 in
/-- Claim C4: a BUY is hard-blocked exactly when a not-yet-rebought record
for the ticker has a December sale date and a blackout (sale date plus 30
days) on or after the as-of date; the 2025-12-10 loss sale yields
blackout 2026-01-09 with the year-end flag, the same-ticker BUY on
2025-12-20 is denied by check_trade and the BUY on 2026-01-15 is
allowed. -/
theorem washSale_december_hard_block (washes : List WashSale) (ticker : String)
    (asOf : PyDate)
    (hwf : ∀ w ∈ washes, w.isYearEndBlocked = (w.saleDate.month == 12) ∧
      w.blackoutUntil = addDays w.saleDate 30) :
    (isWashSaleBlocked washes ticker asOf = true ↔
      ∃ w ∈ washes, w.ticker = ticker ∧ w.saleDate.month = 12 ∧ w.rebought = false ∧
        PyDate.ble asOf (addDays w.saleDate 30) = true) ∧
    (recordWashSale "TKR" ⟨2025, 12, 10⟩ 20 10 2 4).blackoutUntil = ⟨2026, 1, 9⟩ ∧
    (recordWashSale "TKR" ⟨2025, 12, 10⟩ 20 10 2 4).isYearEndBlocked = true ∧
    (checkTrade defaultSettings [] [recordWashSale "TKR" ⟨2025, 12, 10⟩ 20 10 2 4]
      ⟨2025, 12, 20⟩ "TKR" "BUY" "MAIN" (9 / 10) 10 0 false).allowed = false ∧
    (checkTrade defaultSettings [] [recordWashSale "TKR" ⟨2025, 12, 10⟩ 20 10 2 4]
      ⟨2026, 1, 15⟩ "TKR" "BUY" "MAIN" (9 / 10) 10 0 false).allowed = true := by
  refine ⟨?_, by decide, by decide, by with_unfolding_all decide,
    by with_unfolding_all decide⟩
  unfold isWashSaleBlocked
  rw [List.any_eq_true]
  constructor
  · rintro ⟨w, hw, hcond⟩
    simp only [Bool.and_eq_true, beq_iff_eq, Bool.not_eq_true'] at hcond
    obtain ⟨⟨⟨ht, hyb⟩, hble⟩, hreb⟩ := hcond
    obtain ⟨e1, e2⟩ := hwf w hw
    rw [e1, beq_iff_eq] at hyb
    rw [e2] at hble
    exact ⟨w, hw, ht, hyb, hreb, hble⟩
  · rintro ⟨w, hw, ht, hm, hreb, hble⟩
    obtain ⟨e1, e2⟩ := hwf w hw
    refine ⟨w, hw, ?_⟩
    simp [ht, e1, e2, hm, hreb, hble]

set_option maxRecDepth 4000 in
/-- Claim C4, witness: the hard-block characterization instantiated at
the example ledger holding exactly the 2025-12-10 loss sale, queried on
2025-12-20. -/
theorem washSale_december_hard_block_witness :
    (isWashSaleBlocked [recordWashSale "TKR" ⟨2025, 12, 10⟩ 20 10 2 4] "TKR"
        ⟨2025, 12, 20⟩ = true ↔
      ∃ w ∈ [recordWashSale "TKR" ⟨2025, 12, 10⟩ 20 10 2 4], w.ticker = "TKR" ∧
        w.saleDate.month = 12 ∧ w.rebought = false ∧
        PyDate.ble ⟨2025, 12, 20⟩ (addDays w.saleDate 30) = true) ∧
    (recordWashSale "TKR" ⟨2025, 12, 10⟩ 20 10 2 4).blackoutUntil = ⟨2026, 1, 9⟩ ∧
    (recordWashSale "TKR" ⟨2025, 12, 10⟩ 20 10 2 4).isYearEndBlocked = true ∧
    (checkTrade defaultSettings [] [recordWashSale "TKR" ⟨2025, 12, 10⟩ 20 10 2 4]
      ⟨2025, 12, 20⟩ "TKR" "BUY" "MAIN" (9 / 10) 10 0 false).allowed = false ∧
    (checkTrade defaultSettings [] [recordWashSale "TKR" ⟨2025, 12, 10⟩ 20 10 2 4]
      ⟨2026, 1, 15⟩ "TKR" "BUY" "MAIN" (9 / 10) 10 0 false).allowed = true :=
  washSale_december_hard_block [recordWashSale "TKR" ⟨2025, 12, 10⟩ 20 10 2 4]
    "TKR" ⟨2025, 12, 20⟩ (by decide)

/-! ## Claim C5 -/

theorem truncRat_eq_floor_of_nonneg (q : ℚ) (h : 0 ≤ q) :
    truncRat q = Int.floor q := by
  unfold truncRat
  rw [if_neg (not_lt.mpr h)]

theorem allocatedDollars_nonneg (s : Settings) (sleeve : String) (pct : ℚ)
    (hpct : 0 ≤ pct) (hmain : 0 ≤ s.mainSleeveAllocation)
    (hpenny : 0 ≤ s.pennySleeveAllocation)
    (hcap : 0 ≤ s.maxPositionDollarsPenny) :
    0 ≤ allocatedDollars s sleeve pct := by
  unfold allocatedDollars
  split_ifs with h1
  · exact le_min (mul_nonneg (div_nonneg hpct (by norm_num)) hpenny) hcap
  · exact mul_nonneg (div_nonneg hpct (by norm_num)) hmain

/-- Claim C5: for a BUY at a positive price the computed share quantity is
the floor of the allocated dollars (the size percentage of the sleeve
allocation, capped at the dollar ceiling for PENNY) divided by the price;
MAIN at 75 dollars, 20 percent, price 7 allocates 15 dollars and buys 2
shares; PENNY at 25 dollars, 100 percent, cap 8, price 2 allocates 8
dollars and buys 4 shares. -/
theorem calculateQtyBuy_floor (s : Settings) (sleeve : String) (pct price : ℚ)
    (hpct : 0 ≤ pct) (hprice : 0 < price)
    (hmain : 0 ≤ s.mainSleeveAllocation) (hpenny : 0 ≤ s.pennySleeveAllocation)
    (hcap : 0 ≤ s.maxPositionDollarsPenny) :
    calculateQtyBuy s sleeve pct price =
      Int.floor (allocatedDollars s sleeve pct / price) ∧
    allocatedDollars defaultSettings "MAIN" 20 = 15 ∧
    allocatedDollars defaultSettings "PENNY" 100 = 8 ∧
    calculateQtyBuy defaultSettings "MAIN" 20 7 = 2 ∧
    calculateQtyBuy defaultSettings "PENNY" 100 2 = 4 := by
  have ha := allocatedDollars_nonneg s sleeve pct hpct hmain hpenny hcap
  have hq : 0 ≤ allocatedDollars s sleeve pct / price :=
    div_nonneg ha (le_of_lt hprice)
  refine ⟨?_, by with_unfolding_all decide, by with_unfolding_all decide,
    by with_unfolding_all decide, by with_unfolding_all decide⟩
  unfold calculateQtyBuy
  rw [truncRat_eq_floor_of_nonneg _ hq]
  exact max_eq_left (Int.floor_nonneg.mpr hq)

/-- Claim C5, witness: the floor formula applied at the concrete MAIN
example (20 percent at price 7). -/
theorem calculateQtyBuy_floor_witness :
    calculateQtyBuy defaultSettings "MAIN" 20 7 =
      Int.floor (allocatedDollars defaultSettings "MAIN" 20 / 7) ∧
    allocatedDollars defaultSettings "MAIN" 20 = 15 ∧
    allocatedDollars defaultSettings "PENNY" 100 = 8 ∧
    calculateQtyBuy defaultSettings "MAIN" 20 7 = 2 ∧
    calculateQtyBuy defaultSettings "PENNY" 100 2 = 4 :=
  calculateQtyBuy_floor defaultSettings "MAIN" 20 7 (by norm_num) (by norm_num)
    (by norm_num [defaultSettings]) (by norm_num [defaultSettings])
    (by norm_num [defaultSettings])

/-! ## Claim C7 -/

/-- Claim C7: averaging a BUY fill into an existing position yields the
exact weighted-average entry price (old cost basis plus quantity times
price, over old quantity plus quantity), and for two fills at the same
price the resulting entry price does not depend on the order of the
fills. -/
theorem buyFill_weighted_average (p : Position) (price q1 q2 : ℚ) :
    (averageInto p price q1).entryPrice =
      (p.costBasis + q1 * price) / (p.currentQty + q1) ∧
    (averageInto (averageInto p price q1) price q2).entryPrice =
      (averageInto (averageInto p price q2) price q1).entryPrice := by
  constructor
  · simp only [averageInto]
    ring_nf
  · simp only [averageInto]
    ring_nf

/-! ## Claim C6 -/

/-- Claim C6: a SELL fill that fully closes an open position (residual
quantity within epsilon of zero) marks it closed, stamps realized P and L
equal to quantity times price minus cost per share, and appends a wash
sale record exactly when that realized P and L is strictly negative. -/
theorem sellFill_full_close (positions : List Position) (washes : List WashSale)
    (ticker sleeve : String) (price qty : ℚ) (today : PyDate)
    (i : Nat) (p : Position)
    (hidx : findOpenPosIdx positions ticker sleeve = some i)
    (hget : positions.get? i = some p)
    (hq : p.currentQty > 0)
    (hclose : max 0 (p.currentQty - qty) ≤ 1 / 1000) :
    ∃ p2,
      (updatePositionSell positions washes ticker sleeve price qty today).1.get? i =
        some p2 ∧
      p2.isOpen = false ∧
      p2.realizedPnl = some (qty * (price - p.costBasis / p.currentQty)) ∧
      (updatePositionSell positions washes ticker sleeve price qty today).2 =
        (if qty * (price - p.costBasis / p.currentQty) < 0 then
          washes ++ [recordWashSale ticker today
            |qty * (price - p.costBasis / p.currentQty)| qty price
            (p.costBasis / p.currentQty)]
        else washes) := by
  obtain ⟨hlen, -⟩ := List.get?_eq_some.1 hget
  have harith : price * qty - p.costBasis / p.currentQty * qty =
      qty * (price - p.costBasis / p.currentQty) := by ring
  unfold updatePositionSell
  rw [hidx]
  simp only
  rw [hget]
  simp only
  rw [if_pos hq, if_pos hclose]
  refine ⟨_, List.get?_set_eq_of_lt _ hlen, rfl, ?_, ?_⟩
  · exact congrArg some harith
  · rw [harith]

/-- Claim C6, witness: selling 10 shares at 8 out of a 10-share position
with cost basis 100 closes it at a realized loss of 20 and creates a wash
sale record. -/
theorem sellFill_full_close_witness :
    ∃ p2,
      (updatePositionSell
        [{ ticker := "TKR", sleeve := "MAIN", entryPrice := 10,
           entryDate := ⟨2025, 1, 2⟩, currentQty := 10, costBasis := 100,
           isOpen := true }] [] "TKR" "MAIN" 8 10 ⟨2025, 6, 2⟩).1.get? 0 =
        some p2 ∧
      p2.isOpen = false ∧
      p2.realizedPnl = some (10 * ((8 : ℚ) - 100 / 10)) ∧
      (updatePositionSell
        [{ ticker := "TKR", sleeve := "MAIN", entryPrice := 10,
           entryDate := ⟨2025, 1, 2⟩, currentQty := 10, costBasis := 100,
           isOpen := true }] [] "TKR" "MAIN" 8 10 ⟨2025, 6, 2⟩).2 =
        (if (10 : ℚ) * (8 - 100 / 10) < 0 then
          [] ++ [recordWashSale "TKR" ⟨2025, 6, 2⟩ |(10 : ℚ) * (8 - 100 / 10)|
            10 8 (100 / 10)]
        else []) :=
  sellFill_full_close
    [{ ticker := "TKR", sleeve := "MAIN", entryPrice := 10,
       entryDate := ⟨2025, 1, 2⟩, currentQty := 10, costBasis := 100,
       isOpen := true }] [] "TKR" "MAIN" 8 10 ⟨2025, 6, 2⟩ 0
    { ticker := "TKR", sleeve := "MAIN", entryPrice := 10,
      entryDate := ⟨2025, 1, 2⟩, currentQty := 10, costBasis := 100,
      isOpen := true } (by decide) rfl (by with_unfolding_all decide)
    (by with_unfolding_all decide)

/-! ## Database and polling lemmas -/

theorem find?_map_update_self (l : List Decision) (tid : Nat)
    (f : Decision → Decision) (hfid : ∀ d, (f d).id = d.id) (t : Decision)
    (h : l.find? (fun d => d.id == tid) = some t) :
    (l.map fun d => if d.id == tid then f d else d).find?
      (fun d => d.id == tid) = some (f t) := by
  induction l with
  | nil => simp at h
  | cons d rest ih =>
    by_cases hd : (d.id == tid) = true
    · rw [@List.find?_cons_of_pos _ (fun x => x.id == tid) d _ hd] at h
      obtain rfl : d = t := by injection h
      have hfd : ((f d).id == tid) = true := by rw [hfid]; exact hd
      rw [List.map_cons, if_pos hd,
        @List.find?_cons_of_pos _ (fun x => x.id == tid) (f d) _ hfd]
    · rw [@List.find?_cons_of_neg _ (fun x => x.id == tid) d _ hd] at h
      rw [List.map_cons, if_neg hd,
        @List.find?_cons_of_neg _ (fun x => x.id == tid) d _ hd]
      exact ih h

theorem find?_map_update_ne (l : List Decision) (i j : Nat)
    (f : Decision → Decision) (hfid : ∀ d, (f d).id = d.id) (hij : i ≠ j) :
    (l.map fun d => if d.id == j then f d else d).find? (fun d => d.id == i) =
      l.find? (fun d => d.id == i) := by
  induction l with
  | nil => rfl
  | cons d rest ih =>
    rw [List.map_cons]
    by_cases hdj : (d.id == j) = true
    · have hdi : ¬ (d.id == i) = true := by
        simp only [beq_iff_eq] at hdj ⊢
        omega
      have hfi : ¬ ((f d).id == i) = true := by
        rw [hfid]
        exact hdi
      rw [if_pos hdj,
        @List.find?_cons_of_neg _ (fun x => x.id == i) (f d) _ hfi,
        @List.find?_cons_of_neg _ (fun x => x.id == i) d _ hdi]
      exact ih
    · rw [if_neg hdj]
      by_cases hdi : (d.id == i) = true
      · rw [@List.find?_cons_of_pos _ (fun x => x.id == i) d _ hdi,
          @List.find?_cons_of_pos _ (fun x => x.id == i) d _ hdi]
      · rw [@List.find?_cons_of_neg _ (fun x => x.id == i) d _ hdi,
          @List.find?_cons_of_neg _ (fun x => x.id == i) d _ hdi]
        exact ih

theorem getDecision_updateDecision_self (db : Db) (tid : Nat)
    (f : Decision → Decision) (hfid : ∀ d, (f d).id = d.id) (t : Decision)
    (h : getDecision db tid = some t) :
    getDecision (updateDecision db tid f) tid = some (f t) :=
  find?_map_update_self db.decisions tid f hfid t h

theorem getDecision_updateDecision_ne (db : Db) (i j : Nat)
    (f : Decision → Decision) (hfid : ∀ d, (f d).id = d.id) (hij : i ≠ j) :
    getDecision (updateDecision db j f) i = getDecision db i :=
  find?_map_update_ne db.decisions i j f hfid hij

theorem getDecision_eq_of_decisions (db db' : Db) (i : Nat)
    (h : db'.decisions = db.decisions) : getDecision db' i = getDecision db i := by
  unfold getDecision
  rw [h]

theorem pollIter_no_terminal (polls : PollOracle)
    (h : ∀ n st, polls n = .ok st →
      ¬ (st.status = "filled" ∧ pyTruthy st.filledAvgPrice = true) ∧
      ¬ (st.status = "cancelled" ∨ st.status = "expired" ∨ st.status = "rejected")) :
    ∀ n i, pollIter polls i n = (none, n) := by
  intro n
  induction n with
  | zero => intro i; rfl
  | succ n ih =>
    intro i
    unfold pollIter
    cases hp : polls i with
    | error u =>
      dsimp only
      simp only [ih (i + 1)]
    | ok st =>
      obtain ⟨h1, h2⟩ := h i st hp
      dsimp only
      rw [if_neg h1, if_neg h2]
      simp only [ih (i + 1)]

theorem pollForFill_no_terminal (polls : PollOracle)
    (h : ∀ n st, polls n = .ok st →
      ¬ (st.status = "filled" ∧ pyTruthy st.filledAvgPrice = true) ∧
      ¬ (st.status = "cancelled" ∨ st.status = "expired" ∨ st.status = "rejected")) :
    pollForFill polls = (none, maxPollIterations) :=
  pollIter_no_terminal polls h maxPollIterations 0

/-! ## Claim C8 -/

/-- Claim C8: when no poll ever observes a successful fill or a terminal
broker state, the polling loop stops after exactly 45 status calls (the
90 second timeout at a 2 second interval), and execute_trade then issues
exactly one cancel request, records the execution as CANCELLED, and marks
the proposal FAILED. -/
theorem poll_timeout_single_cancel (o : BrokerOracle) (s : Settings) (now : Nat)
    (today : PyDate) (db : Db) (tradeId : Nat) (t : Decision) (price : ℚ)
    (orderId : String)
    (ht : getDecision db tradeId = some t)
    (hq : o.quote = some price)
    (hprice : 0 < price)
    (haction : t.action = "BUY")
    (hqty : 0 < calculateQtyBuy s t.sleeve t.positionSizePct price)
    (hsubmit : o.submit = .ok orderId)
    (hpoll : ∀ n st, o.polls n = .ok st →
      ¬ (st.status = "filled" ∧ pyTruthy st.filledAvgPrice = true) ∧
      ¬ (st.status = "cancelled" ∨ st.status = "expired" ∨ st.status = "rejected")) :
    pollForFill o.polls = (none, maxPollIterations) ∧
    maxPollIterations = 45 ∧
    (∃ ex, (executeTrade o s now today db tradeId).1.executions =
        db.executions ++ [ex] ∧ ex.status = "CANCELLED" ∧
        ex.tradeDecisionId = tradeId) ∧
    getDecision (executeTrade o s now today db tradeId).1 tradeId =
      some { t with status := "FAILED", resolvedAt := some now } ∧
    ((executeTrade o s now today db tradeId).2.filter
      (fun e => e.kind == "cancel_order")).length = 1 := by
  have hpf := pollForFill_no_terminal o.polls hpoll
  have heq : executeTrade o s now today db tradeId =
      ({ updateDecision db tradeId
           (fun d => { d with status := "FAILED", resolvedAt := some now }) with
         executions := db.executions ++
           [{ tradeDecisionId := tradeId, orderId := orderId, side := "buy",
              qty := ((calculateQtyBuy s t.sleeve t.positionSizePct price : Int) : ℚ),
              intendedPrice := price, status := "CANCELLED" }] },
       [⟨tradeId, "submit_order"⟩, ⟨tradeId, "cancel_order"⟩,
        ⟨tradeId, "ws_trade_failed"⟩]) := by
    unfold executeTrade
    rw [ht]
    dsimp only
    rw [hq]
    dsimp only
    rw [if_neg (not_le.mpr hprice), haction]
    simp only [reduceIte]
    rw [if_neg (not_le.mpr hqty), hsubmit]
    dsimp only
    rw [hpf]
  refine ⟨hpf, rfl,
    ⟨{ tradeDecisionId := tradeId, orderId := orderId, side := "buy",
       qty := ((calculateQtyBuy s t.sleeve t.positionSizePct price : Int) : ℚ),
       intendedPrice := price, status := "CANCELLED" }, ?_, rfl, rfl⟩, ?_, ?_⟩
  · rw [heq]
  · rw [heq]
    exact getDecision_updateDecision_self db tradeId
      (fun d => { d with status := "FAILED", resolvedAt := some now })
      (fun d => rfl) t ht
  · rw [heq]
    rfl

/-- Claim C8, witness: a concrete approved BUY against a broker whose
order stays NEW forever — 45 polls, one cancel, CANCELLED execution,
FAILED proposal. -/
theorem poll_timeout_single_cancel_witness :
    pollForFill stuckOracle.polls = (none, maxPollIterations) ∧
    maxPollIterations = 45 ∧
    (∃ ex, (executeTrade stuckOracle defaultSettings 99 ⟨2025, 6, 2⟩ sampleDb
        7).1.executions = sampleDb.executions ++ [ex] ∧
      ex.status = "CANCELLED" ∧ ex.tradeDecisionId = 7) ∧
    getDecision (executeTrade stuckOracle defaultSettings 99 ⟨2025, 6, 2⟩
        sampleDb 7).1 7 =
      some { sampleBuyDecision with status := "FAILED", resolvedAt := some 99 } ∧
    ((executeTrade stuckOracle defaultSettings 99 ⟨2025, 6, 2⟩ sampleDb 7).2.filter
      (fun e => e.kind == "cancel_order")).length = 1 :=
  poll_timeout_single_cancel stuckOracle defaultSettings 99 ⟨2025, 6, 2⟩
    sampleDb 7 sampleBuyDecision 5 "oid-1" rfl rfl (by norm_num) rfl
    (by with_unfolding_all decide) rfl
    (by
      intro n st hp
      injection hp with h
      subst h
      exact ⟨by decide, by decide⟩)

/-! ## Approval queue lemmas -/

theorem postExecutionChecks_decisions (s : Settings) (db : Db) (tid : Nat)
    (a sl : String) (today : PyDate) (now : Nat) :
    (postExecutionChecks s db tid a sl today now).1.decisions = db.decisions := by
  unfold postExecutionChecks
  dsimp only
  split_ifs <;> rfl

theorem postExecutionChecks_effects (s : Settings) (db : Db) (tid : Nat)
    (a sl : String) (today : PyDate) (now : Nat) :
    (postExecutionChecks s db tid a sl today now).2 = [] ∨
    (postExecutionChecks s db tid a sl today now).2 =
      [⟨tid, "notify_circuit_breaker"⟩, ⟨tid, "ws_circuit_breaker"⟩] := by
  unfold postExecutionChecks
  dsimp only
  split_ifs <;> simp

theorem executeTrade_getDecision_ne (o : BrokerOracle) (s : Settings)
    (now : Nat) (today : PyDate) (db : Db) (i j : Nat) (hij : i ≠ j) :
    getDecision (executeTrade o s now today db j).1 i = getDecision db i := by
  unfold executeTrade
  repeat' (first | split | (dsimp only; split))
  all_goals try dsimp only
  all_goals first
    | rfl
    | exact getDecision_updateDecision_ne db i j _ (by intro d; rfl) hij
    | (rw [getDecision_eq_of_decisions _ _ i
            (postExecutionChecks_decisions _ _ _ _ _ _ _),
          getDecision_updateDecision_ne _ i j _ (by intro d; rfl) hij] <;>
        rfl)


theorem executeTrade_effects_tagged (o : BrokerOracle) (s : Settings)
    (now : Nat) (today : PyDate) (db : Db) (j : Nat) :
    ∀ e ∈ (executeTrade o s now today db j).2, e.tradeId = j := by
  intro e he
  unfold executeTrade at he
  repeat' (first | split at he | (dsimp only at he; split at he))
  all_goals try dsimp only at he
  all_goals
    first
      | (simp at he <;>
          first
            | (subst he; rfl)
            | (rcases he with rfl | rfl | rfl <;> rfl))
      | (rcases List.mem_append.1 he with h1 | h2
         · rcases List.mem_append.1 h1 with h3 | h4
           · simp at h3
             subst h3
             rfl
           · rcases postExecutionChecks_effects s _ j _ _ today now with hp | hp
             · rw [hp] at h4
               simp at h4
             · rw [hp] at h4
               simp at h4
               rcases h4 with h5 | h5 <;> (subst h5; rfl)
         · simp at h2
           subst h2
           rfl)


theorem processOne_skip (oracles : Nat → BrokerOracle) (s : Settings)
    (autoApprove : Bool) (now : Nat) (today : PyDate) (db : Db) (j : Nat)
    (h : ∀ d, getDecision db j = some d → d.status ≠ "PENDING") :
    processOne oracles s autoApprove now today db j = (db, []) := by
  unfold processOne
  cases hg : getDecision db j with
  | none => rfl
  | some t =>
    dsimp only
    rw [if_pos (h t hg)]

theorem processOne_getDecision_ne (oracles : Nat → BrokerOracle) (s : Settings)
    (autoApprove : Bool) (now : Nat) (today : PyDate) (db : Db) (i j : Nat)
    (hij : i ≠ j) :
    getDecision (processOne oracles s autoApprove now today db j).1 i =
      getDecision db i := by
  unfold processOne
  repeat' (first | split | (dsimp only; split))
  all_goals try dsimp only
  all_goals first
    | rfl
    | exact getDecision_updateDecision_ne db i j _ (by intro d; rfl) hij
    | (rw [executeTrade_getDecision_ne _ _ _ _ _ i j hij,
        getDecision_updateDecision_ne _ i j _ (by intro d; rfl) hij,
        getDecision_updateDecision_ne _ i j _ (by intro d; rfl) hij])
    | (rw [executeTrade_getDecision_ne _ _ _ _ _ i j hij,
        getDecision_updateDecision_ne _ i j _ (by intro d; rfl) hij])

theorem processOne_effects_tagged (oracles : Nat → BrokerOracle) (s : Settings)
    (autoApprove : Bool) (now : Nat) (today : PyDate) (db : Db) (j : Nat) :
    ∀ e ∈ (processOne oracles s autoApprove now today db j).2, e.tradeId = j := by
  intro e he
  unfold processOne at he
  repeat' (first | split at he | (dsimp only at he; split at he))
  all_goals try dsimp only at he
  all_goals
    first
      | (simp at he <;>
          first
            | (subst he; rfl)
            | (rcases he with rfl | rfl | rfl <;> rfl))
      | (rcases List.mem_append.1 he with h1 | h2
         · simp at h1
           rcases h1 with rfl | rfl <;> rfl
         · exact executeTrade_effects_tagged (oracles j) s now today _ j e h2)


/-! ## Claim C9 -/

/-- Claim C9: for any trade id in a batch whose decision is missing or not
PENDING, process_new_decisions leaves that decision exactly as it was
(its lookup is unchanged, hence every field) and emits no risk check,
execution, notification or broadcast for it — so re-processing a batch
never resolves a decision twice. -/
theorem batch_skips_resolved (oracles : Nat → BrokerOracle) (s : Settings)
    (autoApprove : Bool) (now : Nat) (today : PyDate) (ids : List Nat)
    (db : Db) (i : Nat)
    (h : ∀ d, getDecision db i = some d → d.status ≠ "PENDING") :
    getDecision (processNewDecisions oracles s autoApprove now today db ids).1 i =
      getDecision db i ∧
    ∀ e ∈ (processNewDecisions oracles s autoApprove now today db ids).2,
      e.tradeId ≠ i := by
  induction ids generalizing db with
  | nil =>
    refine ⟨rfl, ?_⟩
    intro e he
    simp [processNewDecisions] at he
  | cons j rest ih =>
    by_cases hji : j = i
    · subst hji
      have hskip := processOne_skip oracles s autoApprove now today db j h
      obtain ⟨ih1, ih2⟩ := ih db h
      constructor
      · show getDecision (processNewDecisions oracles s autoApprove now today
            (processOne oracles s autoApprove now today db j).1 rest).1 j =
          getDecision db j
        rw [hskip]
        exact ih1
      · intro e he
        simp only [processNewDecisions] at he
        rw [hskip] at he
        rcases List.mem_append.1 he with h1 | h2
        · simp at h1
        · exact ih2 e h2
    · have hij : i ≠ j := fun hh => hji hh.symm
      have hne := processOne_getDecision_ne oracles s autoApprove now today db i j hij
      have h2 : ∀ d, getDecision (processOne oracles s autoApprove now today
          db j).1 i = some d → d.status ≠ "PENDING" := by
        rw [hne]
        exact h
      obtain ⟨ih1, ih2⟩ := ih (processOne oracles s autoApprove now today db j).1 h2
      constructor
      · show getDecision (processNewDecisions oracles s autoApprove now today
            (processOne oracles s autoApprove now today db j).1 rest).1 i =
          getDecision db i
        rw [ih1, hne]
      · intro e he
        simp only [processNewDecisions] at he
        rcases List.mem_append.1 he with h1 | h3
        · have := processOne_effects_tagged oracles s autoApprove now today db j e h1
          rw [this]
          exact hji
        · exact ih2 e h3

/-- Claim C9, witness: a batch containing an unknown id (3) and an id
whose decision is already APPROVED (7) leaves decision 7 untouched and
spawns no effect for it. -/
theorem batch_skips_resolved_witness :
    getDecision (processNewDecisions (fun _ => stuckOracle) defaultSettings true
        99 ⟨2025, 6, 2⟩ sampleDb [3, 7]).1 7 = getDecision sampleDb 7 ∧
    ∀ e ∈ (processNewDecisions (fun _ => stuckOracle) defaultSettings true
        99 ⟨2025, 6, 2⟩ sampleDb [3, 7]).2, e.tradeId ≠ 7 :=
  batch_skips_resolved (fun _ => stuckOracle) defaultSettings true 99
    ⟨2025, 6, 2⟩ [3, 7] sampleDb 7
    (by
      intro d hd
      rw [show getDecision sampleDb 7 = some sampleBuyDecision from rfl] at hd
      injection hd with hh
      rw [← hh]
      decide)

end ClassTrader
